import Mathlib

/- Shallow embedding of src/slpmodule.c from python-libslp, the Python C
   binding of the OpenSLP library.  The marshaling logic that lives in the
   repository (error-code translation, the callback bridge, handle
   validation, the open/close resource discipline) is translated directly
   from the C source.  Entry points of the wrapped library itself
   (SLPEscape, SLPUnescape, SLPParseSrvURL, SLPGetRefreshInterval,
   SLPSetProperty, SLPGetProperty) are not part of the repository; where a
   property depends on them they are modelled from the specification, and
   each such definition says so in its doc comment. -/

/-! ### Error codes

The numeric values come from slp.h, as mirrored one-for-one by the
module's ADD_INT_VAR table (slpmodule.c lines 861-882). -/

def SLP_OK : Int := 0

def SLP_LAST_CALL : Int := 1

def SLP_PARSE_ERROR : Int := -2

def SLP_NETWORK_INIT_FAILED : Int := -20

def SLP_PARAMETER_BAD : Int := -22

def SLP_TYPE_ERROR : Int := -26

/-- The static message table inside get_slp_error_msg (slpmodule.c lines
48-68).  The C array uses designated initializers for indices 0-26 and
skips 5 and 16; in C the skipped slots are zero-initialized, i.e. NULL
pointers, modelled here as `none`.  Indices above 26 are never read by the
C code (the range guard excludes them), so mapping them to `none` as well
does not change any reachable behavior. -/
def err_msg (i : Nat) : Option String :=
  match i with
  | 0 => some "SLP_OK"
  | 1 => some "SLP_LANGUAGE_NOT_SUPPORTED"
  | 2 => some "SLP_PARSE_ERROR"
  | 3 => some "SLP_INVALID_REGISTRATION"
  | 4 => some "SLP_SCOPE_NOT_SUPPORTED"
  | 6 => some "SLP_AUTHENTICATION_ABSENT"
  | 7 => some "SLP_AUTHENTICATION_FAILED"
  | 13 => some "SLP_INVALID_UPDATE"
  | 15 => some "SLP_REFRESH_REJECTED"
  | 17 => some "SLP_NOT_IMPLEMENTED"
  | 18 => some "SLP_BUFFER_OVERFLOW"
  | 19 => some "SLP_NETWORK_TIMED_OUT"
  | 20 => some "SLP_NETWORK_INIT_FAILED"
  | 21 => some "SLP_MEMORY_ALLOC_FAILED"
  | 22 => some "SLP_PARAMETER_BAD"
  | 23 => some "SLP_NETWORK_ERROR"
  | 24 => some "SLP_INTERNAL_SYSTEM_ERROR"
  | 25 => some "SLP_HANDLE_IN_USE"
  | 26 => some "SLP_TYPE_ERROR"
  | _ => none

/-- Translation of get_slp_error_msg (slpmodule.c lines 46-79): codes in
[-26, 0] read the table at the negated index, code 1 yields
"SLP_LAST_CALL", everything else yields "UNKNOWN_ERROR".  A `none` result
models the C function returning a NULL pointer. -/
def get_slp_error_msg (err : Int) : Option String :=
  if err ≤ 0 ∧ -26 ≤ err then err_msg (-err).toNat
  else if err = 1 then some "SLP_LAST_CALL"
  else some "UNKNOWN_ERROR"

/-! ### Python-level exceptions raised by the binding -/

/-- The exceptions the binding can raise: PyErr_SetString(PyExc_TypeError,
msg), PyErr_SetString(PyExc_RuntimeError, get_slp_error_msg err) (whose
message is an `Option String` because get_slp_error_msg can produce NULL),
and PyErr_NoMemory / a failed PyCapsule_New, both collapsed to
`allocFailed`. -/
inductive SlpExc where
  | typeError (msg : String)
  | runtimeError (msg : Option String)
  | allocFailed
deriving DecidableEq

/-! ### The callback bridge (cb_common and the three C callbacks)

The Python callback invocation PyObject_CallObject either produces a
result object whose truthiness PyObject_IsTrue reads (modelled
`some truthy`), or fails and returns NULL (modelled `none`). -/

/-- Observable effects of one run of cb_common: whether free(cookie) ran,
whether Py_DECREF(py_callback) ran, whether PyErr_SetString ran (the
callback produced no result), and the SLPBoolean value returned to the
native library.  `ret = none` records that the C local `ret` is returned
uninitialized, which happens when cleanup is set and the callback
succeeded (the short-circuit `cleanup || ...` skips the assignment). -/
structure CbOutcome where
  freed : Bool
  released : Bool
  errSet : Bool
  ret : Option Bool
deriving DecidableEq

/-- Translation of cb_common (slpmodule.c lines 109-127).  `cbResult` is
the outcome of PyObject_CallObject combined with PyObject_IsTrue: `none`
when the Python callback raised (NULL result), `some t` when it returned
an object of truthiness `t`. -/
def cb_common (cbResult : Option Bool) (cleanup : Bool) : CbOutcome :=
  match cbResult with
  | none => { freed := false, released := false, errSet := true, ret := some false }
  | some t =>
    if cleanup = true then
      { freed := true, released := true, errSet := false, ret := none }
    else if t = false then
      { freed := true, released := true, errSet := false, ret := some false }
    else
      { freed := false, released := false, errSet := false, ret := some true }

/-- Translation of srv_url_cb (slpmodule.c lines 142-152): builds the
argument tuple and delegates to cb_common with cleanup = 0. -/
def srv_url_cb (cbResult : Option Bool) : CbOutcome :=
  cb_common cbResult false

/-- Translation of srv_attr_type_cb (slpmodule.c lines 175-185): builds
the argument tuple and delegates to cb_common with cleanup = 0. -/
def srv_attr_type_cb (cbResult : Option Bool) : CbOutcome :=
  cb_common cbResult false

/-- Translation of reg_report_cb (slpmodule.c lines 198-207): delegates to
cb_common with cleanup = 1; the C callback returns void, so the `ret`
field is discarded by the caller. -/
def reg_report_cb (cbResult : Option Bool) : CbOutcome :=
  cb_common cbResult true

/-! ### Handles and the binding entry points -/

/-- A Python object passed where a handle is expected: either a valid
PyCapsule wrapping the native SLPHandle pointer (PyCapsule_IsValid true),
or any other object. -/
inductive PyHandle where
  | capsule (ptr : Nat)
  | notCapsule
deriving DecidableEq

/-- Translation of get_slp_handle (slpmodule.c lines 87-95): the pointer
from a valid capsule, NULL (`none`) otherwise. -/
def get_slp_handle : PyHandle → Option Nat
  | .capsule p => some p
  | .notCapsule => none

/-- The set of native SLP sessions currently open, i.e. the state the
wrapped library's SLPOpen allocates into and SLPClose releases from. -/
structure SysState where
  openSessions : List Nat
deriving DecidableEq

/-- Observable outcome of one binding entry point: whether the underlying
native SLP function was invoked at all, and the Python-level result. -/
structure OpTrace (α : Type) where
  nativeCalled : Bool
  result : Except SlpExc α

/-- Translation of slpfunc_prep_args (slpmodule.c lines 227-251): validate
the handle capsule, then the callback (`cbOk` models PyCallable_Check),
then allocate the cookie (`mallocOk` models the malloc outcome). -/
def slpfunc_prep_args (h : PyHandle) (cbOk mallocOk : Bool) :
    Except SlpExc Nat :=
  match get_slp_handle h with
  | none => .error (.typeError "Invalid SLP handle")
  | some p =>
    if cbOk = false then .error (.typeError "Callback must be callable")
    else if mallocOk = false then .error .allocFailed
    else .ok p

/-- Translation of py_slp_open (slpmodule.c lines 295-315).  `nativeErr`
is the SLPError returned by the native SLPOpen, `hnew` the session it
allocates on success, and `capsuleOk` the outcome of PyCapsule_New.  When
the capsule cannot be created the C code calls SLPClose(hslp) before
returning the error, which removes the new session again. -/
def py_slp_open (st : SysState) (nativeErr : Int) (hnew : Nat)
    (capsuleOk : Bool) : SysState × Except SlpExc PyHandle :=
  if nativeErr ≠ 0 then (st, .error (.runtimeError (get_slp_error_msg nativeErr)))
  else if capsuleOk = true then (⟨hnew :: st.openSessions⟩, .ok (.capsule hnew))
  else (⟨(hnew :: st.openSessions).erase hnew⟩, .error .allocFailed)

/-- Translation of py_slp_close (slpmodule.c lines 324-343).  The validity
check consults only the capsule; a successful close releases the native
session but nothing marks the capsule itself invalid, so the same capsule
value passes the check again on a later call. -/
def py_slp_close (st : SysState) (h : PyHandle) : SysState × OpTrace Unit :=
  match get_slp_handle h with
  | some p => (⟨st.openSessions.erase p⟩, ⟨true, .ok ()⟩)
  | none =>
    (st, ⟨false, .error (.typeError
      "The argument to SLPClose doesn't seem to be a valid SLP handle")⟩)

/-- Translation of py_slp_findsrvs (slpmodule.c lines 360-382):
location_func_prep / slpfunc_prep_args first, then SLPFindSrvs (whose
return code is `nativeErr`). -/
def py_slp_findsrvs (h : PyHandle) (cbOk mallocOk : Bool) (nativeErr : Int) :
    OpTrace Unit :=
  match slpfunc_prep_args h cbOk mallocOk with
  | .error e => ⟨false, .error e⟩
  | .ok _ =>
    if nativeErr ≠ 0 then ⟨true, .error (.runtimeError (get_slp_error_msg nativeErr))⟩
    else ⟨true, .ok ()⟩

/-- Translation of py_slp_findsrvtypes (slpmodule.c lines 398-426): same
control flow as py_slp_findsrvs around the native SLPFindSrvTypes. -/
def py_slp_findsrvtypes (h : PyHandle) (cbOk mallocOk : Bool) (nativeErr : Int) :
    OpTrace Unit :=
  match slpfunc_prep_args h cbOk mallocOk with
  | .error e => ⟨false, .error e⟩
  | .ok _ =>
    if nativeErr ≠ 0 then ⟨true, .error (.runtimeError (get_slp_error_msg nativeErr))⟩
    else ⟨true, .ok ()⟩

/-- Translation of py_slp_findattrs (slpmodule.c lines 443-465): same
control flow around the native SLPFindAttrs. -/
def py_slp_findattrs (h : PyHandle) (cbOk mallocOk : Bool) (nativeErr : Int) :
    OpTrace Unit :=
  match slpfunc_prep_args h cbOk mallocOk with
  | .error e => ⟨false, .error e⟩
  | .ok _ =>
    if nativeErr ≠ 0 then ⟨true, .error (.runtimeError (get_slp_error_msg nativeErr))⟩
    else ⟨true, .ok ()⟩

/-- Translation of py_slp_reg (slpmodule.c lines 485-517): argument
marshaling, slpfunc_prep_args, then the native SLPReg. -/
def py_slp_reg (h : PyHandle) (cbOk mallocOk : Bool) (nativeErr : Int) :
    OpTrace Unit :=
  match slpfunc_prep_args h cbOk mallocOk with
  | .error e => ⟨false, .error e⟩
  | .ok _ =>
    if nativeErr ≠ 0 then ⟨true, .error (.runtimeError (get_slp_error_msg nativeErr))⟩
    else ⟨true, .ok ()⟩

/-- Translation of py_slp_dereg (slpmodule.c lines 531-557): argument
marshaling, slpfunc_prep_args, then the native SLPDereg. -/
def py_slp_dereg (h : PyHandle) (cbOk mallocOk : Bool) (nativeErr : Int) :
    OpTrace Unit :=
  match slpfunc_prep_args h cbOk mallocOk with
  | .error e => ⟨false, .error e⟩
  | .ok _ =>
    if nativeErr ≠ 0 then ⟨true, .error (.runtimeError (get_slp_error_msg nativeErr))⟩
    else ⟨true, .ok ()⟩

/-- Translation of py_slp_delattrs (slpmodule.c lines 572-599): argument
marshaling, slpfunc_prep_args, then the native SLPDelAttrs. -/
def py_slp_delattrs (h : PyHandle) (cbOk mallocOk : Bool) (nativeErr : Int) :
    OpTrace Unit :=
  match slpfunc_prep_args h cbOk mallocOk with
  | .error e => ⟨false, .error e⟩
  | .ok _ =>
    if nativeErr ≠ 0 then ⟨true, .error (.runtimeError (get_slp_error_msg nativeErr))⟩
    else ⟨true, .ok ()⟩

/-- Translation of py_slp_find_scopes (slpmodule.c lines 622-648): handle
check via get_slp_handle, then the native SLPFindScopes, whose output
scope list is the parameter `scopelist`. -/
def py_slp_find_scopes (h : PyHandle) (nativeErr : Int) (scopelist : String) :
    OpTrace String :=
  match get_slp_handle h with
  | none =>
    ⟨false, .error (.typeError "The argument doesn't seem to be a valid SLP handle")⟩
  | some _ =>
    if nativeErr ≠ 0 then ⟨true, .error (.runtimeError (get_slp_error_msg nativeErr))⟩
    else ⟨true, .ok scopelist⟩

/-! ### Property store -/

/-- The process-wide property map the wrapped library reads at start-up. -/
def PropStore : Type := String → Option String

/-- Modelled from the spec: SLPGetProperty lives in the wrapped OpenSLP
library; per the spec it is a pure read of the process-wide store,
`get(name) -> string | absent`. -/
def SLPGetProperty (store : PropStore) (name : String) : Option String :=
  store name

/-- Modelled from the spec: SLPSetProperty lives in the wrapped OpenSLP
library; per the spec (and the binding's own comment at slpmodule.c line
676) it "does nothing": configuration is fixed at process start and
cannot be mutated, so the store is returned unchanged. -/
def SLPSetProperty (store : PropStore) (_name _value : String) : PropStore :=
  store

/-- Translation of py_slp_get_property (slpmodule.c lines 658-671): call
SLPGetProperty and hand the value (or None) back. -/
def py_slp_get_property (store : PropStore) (name : String) :
    Except SlpExc (Option String) :=
  .ok (SLPGetProperty store name)

/-- Translation of py_slp_set_property (slpmodule.c lines 685-699): call
the no-op SLPSetProperty and return None unconditionally. -/
def py_slp_set_property (store : PropStore) (name value : String) :
    PropStore × Except SlpExc Unit :=
  (SLPSetProperty store name value, .ok ())

/-! ### Refresh interval -/

/-- Modelled from the spec: SLPGetRefreshInterval lives in the wrapped
OpenSLP library; it returns an unsigned 16-bit number of seconds (the
same type as the lifetime argument of SLPReg), a value of 0 meaning no
minimum is enforced.  `iv` is whatever value the library computed,
reduced modulo 2^16 by its return type. -/
def SLPGetRefreshInterval (iv : Nat) : Nat :=
  iv % 65536

/-- Translation of py_slp_get_refresh_interval (slpmodule.c lines
609-612): Py_BuildValue("i", SLPGetRefreshInterval()), which always
succeeds and converts the unsigned short to a Python integer. -/
def py_slp_get_refresh_interval (iv : Nat) : Except SlpExc Int :=
  .ok ((SLPGetRefreshInterval iv : Nat) : Int)

/-! ### Escaping and unescaping (Wire Codec)

SLPEscape and SLPUnescape live in the wrapped OpenSLP library, so their
bodies are modelled from the spec (section 4.1): the reserved characters
are replaced by backslash-hex escapes, escaping with the tag flag rejects
characters illegal in tags with SLP_PARAMETER_BAD, and unescaping is the
exact inverse. -/

/-- The spec's reserved characters: `,`, `(`, `)`, `\`, `!`, `<`, `=`,
`>`, `~`. -/
def reserved (c : Char) : Bool :=
  c == ',' || c == '(' || c == ')' || c == '\\' || c == '!' ||
  c == '<' || c == '=' || c == '>' || c == '~'

/-- Modelled from the spec: the characters illegal inside an attribute
tag — a NUL, the CR/LF/HT control characters and the wildcard characters
`*` and `_` (the spec's "embedded NUL-equivalent" and the RFC 2608 bad
tag characters); reserved delimiters are not illegal, they are written in
escape form. -/
def badTagChar (c : Char) : Bool :=
  c == '\x00' || c == '\r' || c == '\n' || c == '\t' || c == '*' || c == '_'

/-- A character is illegal for a given tag flag exactly when the flag is
set and the character is a bad tag character. -/
def illegalFor (tag : Bool) (c : Char) : Bool :=
  tag && badTagChar c

/-- Upper-case hexadecimal digit for a value below 16. -/
def hexDigitChar (n : Nat) : Char :=
  if n < 10 then Char.ofNat (48 + n) else Char.ofNat (55 + n)

/-- Value of a hexadecimal digit character, `none` for a non-digit. -/
def hexVal (c : Char) : Option Nat :=
  if 48 ≤ c.toNat ∧ c.toNat ≤ 57 then some (c.toNat - 48)
  else if 65 ≤ c.toNat ∧ c.toNat ≤ 70 then some (c.toNat - 55)
  else if 97 ≤ c.toNat ∧ c.toNat ≤ 102 then some (c.toNat - 87)
  else none

/-- Backslash-hex escape form of one reserved character. -/
def escapeChar (c : Char) : List Char :=
  ['\\', hexDigitChar (c.toNat / 16), hexDigitChar (c.toNat % 16)]

/-- Escape pass over the character list: reserved characters are replaced
by their backslash-hex form, everything else is copied. -/
def escapeList : List Char → List Char
  | [] => []
  | c :: rest => (if reserved c = true then escapeChar c else [c]) ++ escapeList rest

/-- Unescape pass: a backslash must be followed by two hexadecimal
digits, which decode to the original character; any other character is
copied; a malformed escape yields `none`. -/
def unescapeList : List Char → Option (List Char)
  | [] => some []
  | '\\' :: h1 :: h2 :: rest2 =>
    match hexVal h1, hexVal h2 with
    | some n1, some n2 =>
      (unescapeList rest2).map (fun l => Char.ofNat (16 * n1 + n2) :: l)
    | _, _ => none
  | '\\' :: _ => none
  | c :: rest => (unescapeList rest).map (fun l => c :: l)

/-- Modelled from the spec: SLPEscape lives in the wrapped OpenSLP
library; with the tag flag set it rejects strings holding a character
illegal in tags with SLP_PARAMETER_BAD, otherwise it produces the
backslash-hex escaped string. -/
def SLPEscape (s : String) (istag : Bool) : Except Int String :=
  if istag = true ∧ s.data.any badTagChar = true then .error SLP_PARAMETER_BAD
  else .ok (String.mk (escapeList s.data))

/-- Modelled from the spec: SLPUnescape lives in the wrapped OpenSLP
library; it is the exact inverse of the escape pass, failing with
SLP_PARSE_ERROR on a malformed escape.  The spec's unescape contract does
not consult the tag flag, so the model ignores it. -/
def SLPUnescape (s : String) (_istag : Bool) : Except Int String :=
  match unescapeList s.data with
  | some l => .ok (String.mk l)
  | none => .error SLP_PARSE_ERROR

/-- The value held by a C `PyObject *` variable: either a genuine Python
object reference (only its truthiness matters here), or a raw C int that
PyArg_ParseTuple format "i" wrote through the pointer variable, punning
the integer into the pointer slot. -/
inductive PyObjPtr where
  | obj (truthy : Bool)
  | punnedInt (v : Int)

/-- PyObject_IsTrue on the value of a `PyObject *` variable: the object's
truthiness when the variable holds a genuine reference; when the variable
holds an integer punned into the pointer slot, the call dereferences that
integer as a pointer — undefined behavior, modelled as `none`. -/
def PyObject_IsTrue : PyObjPtr → Option Bool
  | .obj t => some t
  | .punnedInt _ => none

/-- Translation of py_slp_escape (slpmodule.c lines 744-767).  The C
declares `PyObject *py_istag` but parses the flag with PyArg_ParseTuple
format "si", so the raw C int `istagArg` is written through the PyObject*
variable, and PyObject_IsTrue is then called on that integer-punned
pointer.  The binding therefore has no defined outcome (`none`) on every
call; were the truthiness defined, it would proceed into SLPEscape and
marshal the result or the translated error as the remaining lines do. -/
def py_slp_escape (s : String) (istagArg : Int) : Option (Except SlpExc String) :=
  match PyObject_IsTrue (.punnedInt istagArg) with
  | none => none
  | some istag =>
    some (match SLPEscape s istag with
      | .error err => .error (.runtimeError (get_slp_error_msg err))
      | .ok e => .ok e)

/-- Translation of py_slp_unescape (slpmodule.c lines 778-801): the same
"si"-into-`PyObject *` flag marshaling as py_slp_escape, so the
PyObject_IsTrue call on the punned pointer again leaves the binding with
no defined outcome; were the truthiness defined, it would proceed into
SLPUnescape. -/
def py_slp_unescape (s : String) (istagArg : Int) : Option (Except SlpExc String) :=
  match PyObject_IsTrue (.punnedInt istagArg) with
  | none => none
  | some istag =>
    some (match SLPUnescape s istag with
      | .error err => .error (.runtimeError (get_slp_error_msg err))
      | .ok u => .ok u)

/-! ### Service URL parsing

SLPParseSrvURL lives in the wrapped OpenSLP library, so the parser is
modelled from the spec (section 4.2): grammar
`service:<srvtype>://<host>[:<port>][/<srvpart>]`, empty or malformed
input fails with SLP_PARSE_ERROR, and the port defaults to 0 when
absent. -/

/-- The parsed service URL of the spec's data model: service type,
host, port (0 if absent), network family and service part. -/
structure SLPSrvURL where
  srvtype : String
  host : String
  port : Nat
  netfamily : String
  srvpart : String
deriving DecidableEq

/-- Strips an expected prefix from a character list, `none` when the list
does not start with it. -/
def stripPrefixList : List Char → List Char → Option (List Char)
  | [], l => some l
  | _ :: _, [] => none
  | p :: ps, c :: cs => if c = p then stripPrefixList ps cs else none

/-- Splits a character list at the first occurrence of the separator
`://`, returning the part before it and the part after it. -/
def splitSep : List Char → Option (List Char × List Char)
  | [] => none
  | c :: rest =>
    if c = ':' ∧ rest.take 2 = ['/', '/'] then some ([], rest.drop 2)
    else (splitSep rest).map (fun p => (c :: p.1, p.2))

/-- Takes the host portion: the characters before the first `:` (port)
or `/` (service part), together with the remainder. -/
def hostSpan : List Char → List Char × List Char
  | [] => ([], [])
  | c :: rest =>
    if c = ':' ∨ c = '/' then ([], c :: rest)
    else
      let p := hostSpan rest
      (c :: p.1, p.2)

/-- Decimal digit test. -/
def isDigit (c : Char) : Bool :=
  48 ≤ c.toNat && c.toNat ≤ 57

/-- Takes the leading run of decimal digits together with the
remainder. -/
def digitSpan : List Char → List Char × List Char
  | [] => ([], [])
  | c :: rest =>
    if isDigit c = true then
      let p := digitSpan rest
      (c :: p.1, p.2)
    else ([], c :: rest)

/-- Numeric value of a run of decimal digits. -/
def natOfDigits : List Char → Nat
  | [] => 0
  | c :: rest => natOfDigitsAux (c.toNat - 48) rest
where
  natOfDigitsAux (acc : Nat) : List Char → Nat
    | [] => acc
    | c :: rest => natOfDigitsAux (10 * acc + (c.toNat - 48)) rest

/-- After `service:<srvtype>://<host>:<digits>`, the URL must either end
(port, no service part) or continue with the slash-led service part. -/
def parsePortTail (ty host digits : List Char) : List Char → Except Int SLPSrvURL
  | [] => .ok ⟨String.mk ty, String.mk host, natOfDigits digits, "", ""⟩
  | '/' :: rest => .ok ⟨String.mk ty, String.mk host, natOfDigits digits, "",
      String.mk ('/' :: rest)⟩
  | _ => .error SLP_PARSE_ERROR

/-- After `service:<srvtype>://<host>:`, a nonempty digit run gives the
port, anything else is malformed. -/
def parsePort (ty host rest4 : List Char) : Except Int SLPSrvURL :=
  if (digitSpan rest4).1 = [] then .error SLP_PARSE_ERROR
  else parsePortTail ty host (digitSpan rest4).1 (digitSpan rest4).2

/-- After the host, the URL either ends (port 0, empty service part),
continues with the slash-led service part (port 0), or continues with a
colon and the port. -/
def parseTail (ty host : List Char) : List Char → Except Int SLPSrvURL
  | [] => .ok ⟨String.mk ty, String.mk host, 0, "", ""⟩
  | '/' :: rest => .ok ⟨String.mk ty, String.mk host, 0, "", String.mk ('/' :: rest)⟩
  | ':' :: rest4 => parsePort ty host rest4
  | _ => .error SLP_PARSE_ERROR

/-- Requires a nonempty host and hands the remainder to `parseTail`. -/
def parseHostPart (ty : List Char) : List Char × List Char → Except Int SLPSrvURL
  | (host, rest3) =>
    if host = [] then .error SLP_PARSE_ERROR
    else parseTail ty host rest3

/-- Requires the `://` separator and a nonempty service type, then splits
off the host. -/
def afterSplit : Option (List Char × List Char) → Except Int SLPSrvURL
  | none => .error SLP_PARSE_ERROR
  | some (ty, rest2) =>
    if ty = [] then .error SLP_PARSE_ERROR
    else parseHostPart ty (hostSpan rest2)

/-- Requires the `service:` scheme prefix, then looks for `://`. -/
def afterStrip : Option (List Char) → Except Int SLPSrvURL
  | none => .error SLP_PARSE_ERROR
  | some rest => afterSplit (splitSep rest)

/-- Modelled from the spec: SLPParseSrvURL lives in the wrapped OpenSLP
library.  The grammar is `service:<srvtype>://<host>[:<port>][/<srvpart>]`
with a nonempty service type and host; the service part keeps its leading
slash; the port defaults to 0 when the `:<port>` component is absent; the
network-family qualifier is not modelled and is returned empty; empty or
malformed input fails with SLP_PARSE_ERROR. -/
def SLPParseSrvURL (s : String) : Except Int SLPSrvURL :=
  afterStrip (stripPrefixList "service:".data s.data)

/-- Translation of py_slp_parse_srvurl (slpmodule.c lines 709-733): call
SLPParseSrvURL and either return the parsed record or raise RuntimeError
with the translated error name. -/
def py_slp_parse_srvurl (s : String) : Except SlpExc SLPSrvURL :=
  match SLPParseSrvURL s with
  | .error err => .error (.runtimeError (get_slp_error_msg err))
  | .ok u => .ok u

/-! ## Helper lemmas -/

/-- A handle object on which get_slp_handle yields NULL is not a capsule. -/
theorem handle_none (h : PyHandle) (hh : get_slp_handle h = none) :
    h = .notCapsule := by
  cases h with
  | capsule p => simp [get_slp_handle] at hh
  | notCapsule => rfl

/-- Unescaping a backslash followed by two hexadecimal digits decodes the
escaped character and continues with the remainder. -/
theorem unescapeList_backslash (d1 d2 : Char) (n1 n2 : Nat) (rest : List Char)
    (e1 : hexVal d1 = some n1) (e2 : hexVal d2 = some n2) :
    unescapeList ('\\' :: d1 :: d2 :: rest) =
      (unescapeList rest).map (fun l => Char.ofNat (16 * n1 + n2) :: l) := by
  simp [unescapeList, e1, e2]

/-- Unescaping the escape form of any reserved character recovers that
character. -/
theorem unescapeList_escapeChar (c : Char) (hc : reserved c = true)
    (rest : List Char) :
    unescapeList (escapeChar c ++ rest) = (unescapeList rest).map (fun l => c :: l) := by
  simp only [reserved, Bool.or_eq_true, beq_iff_eq] at hc
  rcases hc with ((((((((rfl | rfl) | rfl) | rfl) | rfl) | rfl) | rfl) | rfl) | rfl)
  all_goals simp [escapeChar, unescapeList, hexVal, hexDigitChar]

/-- The unescape pass inverts the escape pass on every character list. -/
theorem unescapeList_escapeList (l : List Char) :
    unescapeList (escapeList l) = some l := by
  induction l with
  | nil => rfl
  | cons c rest ih =>
    rw [escapeList]
    by_cases h : reserved c = true
    · rw [if_pos h, unescapeList_escapeChar c h, ih]
      rfl
    · rw [if_neg h, List.singleton_append]
      have hc : ¬ (c = '\\') := by
        intro e
        subst e
        exact h (by decide)
      rw [unescapeList.eq_4 c (escapeList rest) (fun _ _ _ e _ => hc e), ih]
      · rfl
      · exact hc

/-- Stripping a prefix from a list that starts with it yields the rest. -/
theorem stripPrefixList_append (p l : List Char) :
    stripPrefixList p (p ++ l) = some l := by
  induction p with
  | nil => rfl
  | cons c ps ih => simp [stripPrefixList, ih]

/-- Splitting at the separator finds the first `://` when the part before
it contains no colon. -/
theorem splitSep_append (ty r : List Char) (hty : ∀ c ∈ ty, c ≠ ':') :
    splitSep (ty ++ ':' :: '/' :: '/' :: r) = some (ty, r) := by
  induction ty with
  | nil => simp [splitSep]
  | cons c ts ih =>
    have hc : c ≠ ':' := hty c (by simp)
    have hts : ∀ x ∈ ts, x ≠ ':' := fun x hx => hty x (by simp [hx])
    simp only [List.cons_append, splitSep, List.append_eq]
    rw [if_neg (fun hand => hc hand.1), ih hts]
    rfl

/-- The host span consumes exactly the host when the host is free of `:`
and `/` and the remainder is empty or starts with one of them. -/
theorem hostSpan_stops (host rest : List Char)
    (hh : ∀ c ∈ host, ¬(c = ':' ∨ c = '/'))
    (hr : rest = [] ∨ ∃ d r, rest = d :: r ∧ (d = ':' ∨ d = '/')) :
    hostSpan (host ++ rest) = (host, rest) := by
  induction host with
  | nil =>
    rcases hr with rfl | ⟨d, r, rfl, hd⟩
    · rfl
    · simp [hostSpan, hd]
  | cons c hs ih =>
    have hc := hh c (by simp)
    simp only [List.cons_append, hostSpan]
    rw [if_neg hc]
    simp [ih (fun x hx => hh x (by simp [hx]))]

/-- Parsing a well-formed service URL whose optional port component is
absent yields port 0. -/
theorem SLPParseSrvURL_noport (ty host part : List Char)
    (hty0 : ty ≠ []) (hty : ∀ c ∈ ty, c ≠ ':')
    (hh0 : host ≠ []) (hh : ∀ c ∈ host, ¬(c = ':' ∨ c = '/'))
    (hp : part = [] ∨ ∃ r, part = '/' :: r) :
    SLPParseSrvURL (String.mk ("service:".data ++ (ty ++ ':' :: '/' :: '/' :: (host ++ part)))) =
      .ok ⟨String.mk ty, String.mk host, 0, "", String.mk part⟩ := by
  rw [SLPParseSrvURL,
    show (String.mk ("service:".data ++ (ty ++ ':' :: '/' :: '/' :: (host ++ part)))).data
      = "service:".data ++ (ty ++ ':' :: '/' :: '/' :: (host ++ part)) from rfl,
    stripPrefixList_append, afterStrip,
    splitSep_append ty (host ++ part) hty, afterSplit, if_neg hty0,
    hostSpan_stops host part hh (by
      rcases hp with rfl | ⟨r, rfl⟩
      · exact Or.inl rfl
      · exact Or.inr ⟨'/', r, rfl, Or.inr rfl⟩), parseHostPart, if_neg hh0]
  rcases hp with rfl | ⟨r, rfl⟩
  · rfl
  · rfl

/-! ## Claim theorems -/

/-- Claim C1 (code bug): the claim states that the error-to-string
translation is total — table codes yield their names, 1 yields
"SLP_LAST_CALL", all other codes including the in-range gap codes -5 and
-16 yield "UNKNOWN_ERROR", and no input yields a null string.  Evaluating
the translated code shows the gap codes -5 and -16 instead return the NULL
table slot (`none`), while the surrounding cases behave as claimed. -/
theorem C1_error_msg_gap_codes :
    get_slp_error_msg (-5) = none ∧
    get_slp_error_msg (-16) = none ∧
    get_slp_error_msg 0 = some "SLP_OK" ∧
    get_slp_error_msg (-26) = some "SLP_TYPE_ERROR" ∧
    get_slp_error_msg 1 = some "SLP_LAST_CALL" ∧
    get_slp_error_msg 2 = some "UNKNOWN_ERROR" ∧
    get_slp_error_msg (-27) = some "UNKNOWN_ERROR" := by
  decide

/-- Claim C2 (code bug): the claim states that the registration-family
callback path (cb_common with cleanup set, used by reg_report_cb for
register, deregister and delete-attributes) always frees the cookie and
releases the callback reference, including when the invoked callback does
not produce a usable result.  Evaluating the translated code shows that
when the Python callback produces no result (raises), the cleanup branch
is skipped: the cookie is not freed and the reference not released; when
the callback does produce a result, cleanup happens regardless of its
value. -/
theorem C2_reg_cleanup_skipped_on_callback_failure :
    (reg_report_cb none).freed = false ∧
    (reg_report_cb none).released = false ∧
    (reg_report_cb none).errSet = true ∧
    (∀ t : Bool, (reg_report_cb (some t)).freed = true ∧
      (reg_report_cb (some t)).released = true) := by
  decide

/-- Claim C3: for the discovery callbacks (srv_url_cb for find-services,
srv_attr_type_cb for find-service-types and find-attributes), whenever the
caller-supplied callback returns a value of truthiness t, the bridge
returns t to the native library, and the cookie and callback reference are
released exactly when t is false ("stop"); while t is true ("more") they
stay allocated. -/
theorem C3_discovery_continuation (t : Bool) :
    (srv_url_cb (some t)).ret = some t ∧
    (srv_attr_type_cb (some t)).ret = some t ∧
    ((srv_url_cb (some t)).freed = true ↔ t = false) ∧
    ((srv_url_cb (some t)).released = true ↔ t = false) ∧
    ((srv_attr_type_cb (some t)).freed = true ↔ t = false) ∧
    ((srv_attr_type_cb (some t)).released = true ↔ t = false) := by
  cases t <;> decide

/-- Witness for C3 at the concrete continuation value false. -/
theorem C3_discovery_continuation_witness :
    (srv_url_cb (some false)).ret = some false ∧
    (srv_attr_type_cb (some false)).ret = some false ∧
    ((srv_url_cb (some false)).freed = true ↔ false = false) ∧
    ((srv_url_cb (some false)).released = true ↔ false = false) ∧
    ((srv_attr_type_cb (some false)).freed = true ↔ false = false) ∧
    ((srv_attr_type_cb (some false)).released = true ↔ false = false) :=
  C3_discovery_continuation false

/-- The round trip at the wrapped-library level: escaping any string free
of characters illegal for the flag succeeds, and unescaping the escaped
string recovers the original. -/
theorem SLP_escape_roundtrip (s : String) (tag : Bool)
    (h : ∀ c ∈ s.data, illegalFor tag c = false) :
    ∃ e, SLPEscape s tag = .ok e ∧ SLPUnescape e tag = .ok s := by
  have hesc : SLPEscape s tag = .ok (String.mk (escapeList s.data)) := by
    rw [SLPEscape, if_neg]
    rintro ⟨htag, hany⟩
    rcases List.any_eq_true.mp hany with ⟨c, hcmem, hcbad⟩
    have hcf := h c hcmem
    rw [illegalFor, htag, Bool.true_and, hcbad] at hcf
    exact Bool.true_eq_false ▸ hcf
  refine ⟨String.mk (escapeList s.data), hesc, ?_⟩
  rw [SLPUnescape]
  have hun : unescapeList (String.mk (escapeList s.data)).data = some s.data :=
    unescapeList_escapeList s.data
  rw [hun]

/-- Claim C4 (code bug): the claim states that escape followed by
unescape is the identity on valid inputs.  That contract holds at the
wrapped-library level (third conjunct), but the binding wrappers the
claim cites never deliver it: py_slp_escape and py_slp_unescape parse the
tag flag with PyArg_ParseTuple format "i" into a `PyObject *` variable
and call PyObject_IsTrue on the integer-punned pointer, so every call has
no defined outcome before SLPEscape or SLPUnescape is reached (first two
conjuncts). -/
theorem C4_escape_roundtrip_binding_bug :
    (∀ (s : String) (flag : Int), py_slp_escape s flag = none) ∧
    (∀ (s : String) (flag : Int), py_slp_unescape s flag = none) ∧
    (∀ (s : String) (tag : Bool), (∀ c ∈ s.data, illegalFor tag c = false) →
      ∃ e, SLPEscape s tag = .ok e ∧ SLPUnescape e tag = .ok s) :=
  ⟨fun _ _ => rfl, fun _ _ => rfl, SLP_escape_roundtrip⟩

/-- Witness for C4: the binding has no defined outcome on concrete calls,
and the library-level round trip holds at a concrete string with several
reserved characters and the tag flag set. -/
theorem C4_escape_roundtrip_binding_bug_witness :
    py_slp_escape "a,b" 1 = none ∧
    py_slp_unescape "a\\2Cb" 0 = none ∧
    (∃ e, SLPEscape "a,b=(c)" true = .ok e ∧ SLPUnescape e true = .ok "a,b=(c)") :=
  ⟨C4_escape_roundtrip_binding_bug.1 "a,b" 1,
   C4_escape_roundtrip_binding_bug.2.1 "a\\2Cb" 0,
   C4_escape_roundtrip_binding_bug.2.2 "a,b=(c)" true (by decide)⟩

/-- Claim C5: the property-set operation always succeeds with the None
value and leaves the property store unchanged, so a subsequent get
returns exactly what it would have returned before the set. -/
theorem C5_set_property_noop (store : PropStore) (name value n2 : String) :
    (py_slp_set_property store name value).2 = .ok () ∧
    py_slp_get_property (py_slp_set_property store name value).1 n2 =
      py_slp_get_property store n2 :=
  ⟨rfl, rfl⟩

/-- Witness for C5 at a concrete store, property name and value. -/
theorem C5_set_property_noop_witness :
    (py_slp_set_property (fun _ => none) "net.slp.useScopes" "X").2 = .ok () ∧
    py_slp_get_property
        (py_slp_set_property (fun _ => none) "net.slp.useScopes" "X").1
        "net.slp.useScopes" =
      py_slp_get_property (fun _ => none) "net.slp.useScopes" :=
  C5_set_property_noop (fun _ => none) "net.slp.useScopes" "X" "net.slp.useScopes"

/-- Counterexample to claim C6 as stated: closing a handle a second time
does not fail with TypeError.  The first close succeeds; the capsule is
never invalidated, so the second close on the very same handle object also
succeeds and invokes the native SLPClose again. -/
theorem C6_counterexample_double_close :
    (py_slp_close ⟨[5]⟩ (.capsule 5)).2.result = .ok () ∧
    (py_slp_close (py_slp_close ⟨[5]⟩ (.capsule 5)).1 (.capsule 5)).2.result = .ok () ∧
    (py_slp_close (py_slp_close ⟨[5]⟩ (.capsule 5)).1 (.capsule 5)).2.nativeCalled = true :=
  ⟨rfl, rfl, rfl⟩

/-- Claim C6 as amended: every public handle-taking operation validates
the handle first and fails with TypeError — without invoking the native
function — when given an object that is not a valid handle capsule,
including close; but closing a handle a second time is not detected: the
capsule stays valid, so the second close succeeds and calls the native
close again. -/
theorem C6_handle_validation_amended :
    (∀ st h, get_slp_handle h = none →
      py_slp_close st h = (st, ⟨false, .error (.typeError
        "The argument to SLPClose doesn't seem to be a valid SLP handle")⟩)) ∧
    (∀ h cbOk mallocOk nativeErr, get_slp_handle h = none →
      py_slp_findsrvs h cbOk mallocOk nativeErr =
        ⟨false, .error (.typeError "Invalid SLP handle")⟩) ∧
    (∀ h cbOk mallocOk nativeErr, get_slp_handle h = none →
      py_slp_findsrvtypes h cbOk mallocOk nativeErr =
        ⟨false, .error (.typeError "Invalid SLP handle")⟩) ∧
    (∀ h cbOk mallocOk nativeErr, get_slp_handle h = none →
      py_slp_findattrs h cbOk mallocOk nativeErr =
        ⟨false, .error (.typeError "Invalid SLP handle")⟩) ∧
    (∀ h cbOk mallocOk nativeErr, get_slp_handle h = none →
      py_slp_reg h cbOk mallocOk nativeErr =
        ⟨false, .error (.typeError "Invalid SLP handle")⟩) ∧
    (∀ h cbOk mallocOk nativeErr, get_slp_handle h = none →
      py_slp_dereg h cbOk mallocOk nativeErr =
        ⟨false, .error (.typeError "Invalid SLP handle")⟩) ∧
    (∀ h cbOk mallocOk nativeErr, get_slp_handle h = none →
      py_slp_delattrs h cbOk mallocOk nativeErr =
        ⟨false, .error (.typeError "Invalid SLP handle")⟩) ∧
    (∀ h nativeErr scopes, get_slp_handle h = none →
      py_slp_find_scopes h nativeErr scopes =
        ⟨false, .error (.typeError
          "The argument doesn't seem to be a valid SLP handle")⟩) ∧
    (∀ st p, (py_slp_close st (.capsule p)).2.result = .ok () ∧
      (py_slp_close (py_slp_close st (.capsule p)).1 (.capsule p)).2.result = .ok ()) :=
  ⟨fun st h hh => by rw [handle_none h hh]; rfl,
   fun h c m n hh => by rw [handle_none h hh]; rfl,
   fun h c m n hh => by rw [handle_none h hh]; rfl,
   fun h c m n hh => by rw [handle_none h hh]; rfl,
   fun h c m n hh => by rw [handle_none h hh]; rfl,
   fun h c m n hh => by rw [handle_none h hh]; rfl,
   fun h c m n hh => by rw [handle_none h hh]; rfl,
   fun h n s hh => by rw [handle_none h hh]; rfl,
   fun st p => ⟨rfl, rfl⟩⟩

/-- Witness for the amended C6: an object that is not a capsule is
rejected with TypeError by find-services (native never called) and by
close (state untouched). -/
theorem C6_handle_validation_amended_witness :
    py_slp_findsrvs .notCapsule true true 0 =
      ⟨false, .error (.typeError "Invalid SLP handle")⟩ ∧
    py_slp_close ⟨[1]⟩ .notCapsule = (⟨[1]⟩, ⟨false, .error (.typeError
      "The argument to SLPClose doesn't seem to be a valid SLP handle")⟩) :=
  ⟨C6_handle_validation_amended.2.1 .notCapsule true true 0 rfl,
   C6_handle_validation_amended.1 ⟨[1]⟩ .notCapsule rfl⟩

/-- Claim C7 (code bug): the claim states that escaping a string holding
a character illegal in a tag, with the tag flag set, fails with
ParameterBad surfaced as an exception naming "SLP_PARAMETER_BAD".  The
wrapped library rejects such strings with SLP_PARAMETER_BAD and the
binding's error translation produces exactly that name (second and third
conjuncts), but the binding wrapper can never surface it cleanly: its tag
flag marshaling (format "i" into a `PyObject *`, then PyObject_IsTrue on
the punned pointer) leaves every call without a defined outcome before
SLPEscape runs (first conjunct). -/
theorem C7_escape_tag_binding_bug :
    (∀ (s : String) (flag : Int), py_slp_escape s flag = none) ∧
    (∀ s : String, (∃ c ∈ s.data, badTagChar c = true) →
      SLPEscape s true = .error SLP_PARAMETER_BAD) ∧
    get_slp_error_msg SLP_PARAMETER_BAD = some "SLP_PARAMETER_BAD" := by
  refine ⟨fun _ _ => rfl, fun s h => ?_, by decide⟩
  have hany : s.data.any badTagChar = true := by
    rcases h with ⟨c, hmem, hbad⟩
    exact List.any_eq_true.mpr ⟨c, hmem, hbad⟩
  rw [SLPEscape, if_pos ⟨rfl, hany⟩]

/-- Witness for C7 at a concrete string holding an underscore, one of the
characters illegal in tags. -/
theorem C7_escape_tag_binding_bug_witness :
    py_slp_escape "bad_tag" 1 = none ∧
    SLPEscape "bad_tag" true = .error SLP_PARAMETER_BAD :=
  ⟨C7_escape_tag_binding_bug.1 "bad_tag" 1,
   C7_escape_tag_binding_bug.2.1 "bad_tag" ⟨'_', by decide, by decide⟩⟩

/-- Claim C8: parsing "service:foo://host:123/part" yields service type
"foo", host "host", port 123 and service part "/part"; parsing the empty
string fails with the parse error; and every well-formed URL with no port
component parses with port 0. -/
theorem C8_parse_srvurl :
    SLPParseSrvURL "service:foo://host:123/part" =
      .ok ⟨"foo", "host", 123, "", "/part"⟩ ∧
    SLPParseSrvURL "" = .error SLP_PARSE_ERROR ∧
    (∀ ty host part : List Char, ty ≠ [] → (∀ c ∈ ty, c ≠ ':') →
      host ≠ [] → (∀ c ∈ host, ¬(c = ':' ∨ c = '/')) →
      (part = [] ∨ ∃ r, part = '/' :: r) →
      SLPParseSrvURL
          (String.mk ("service:".data ++ (ty ++ ':' :: '/' :: '/' :: (host ++ part)))) =
        .ok ⟨String.mk ty, String.mk host, 0, "", String.mk part⟩) :=
  ⟨rfl, rfl, SLPParseSrvURL_noport⟩

/-- Witness for C8: the no-port clause applied to the concrete URL
"service:foo://h" parses with port 0. -/
theorem C8_parse_srvurl_witness :
    SLPParseSrvURL
        (String.mk ("service:".data ++
          (("foo" : String).data ++ ':' :: '/' :: '/' :: (("h" : String).data ++ [])))) =
      .ok ⟨String.mk ("foo" : String).data, String.mk ("h" : String).data, 0, "",
        String.mk []⟩ :=
  C8_parse_srvurl.2.2 ("foo" : String).data ("h" : String).data []
    (by decide) (by decide) (by decide) (by decide) (Or.inl rfl)

/-- Claim C9: the minimum-refresh-interval operation never fails and
always returns a non-negative number of seconds. -/
theorem C9_refresh_interval_nonneg (iv : Nat) :
    ∃ n : Int, py_slp_get_refresh_interval iv = .ok n ∧ 0 ≤ n :=
  ⟨((iv % 65536 : Nat) : Int), rfl, Int.natCast_nonneg _⟩

/-- Witness for C9 at a concrete native interval value. -/
theorem C9_refresh_interval_nonneg_witness :
    ∃ n : Int, py_slp_get_refresh_interval 3600 = .ok n ∧ 0 ≤ n :=
  C9_refresh_interval_nonneg 3600

/-- Claim C10: whenever the open operation returns an error — the native
open failed, or the native open succeeded but the capsule could not be
created (in which case the fresh handle is closed again) — the set of
open native sessions is left exactly as it was. -/
theorem C10_open_atomic_on_failure (st : SysState) (nativeErr : Int)
    (hnew : Nat) (capsuleOk : Bool) (e : SlpExc)
    (h : (py_slp_open st nativeErr hnew capsuleOk).2 = .error e) :
    (py_slp_open st nativeErr hnew capsuleOk).1 = st := by
  unfold py_slp_open at h ⊢
  by_cases h1 : nativeErr ≠ 0
  · rw [if_pos h1]
  · rw [if_neg h1] at h ⊢
    by_cases h2 : capsuleOk = true
    · rw [if_pos h2] at h
      simp at h
    · rw [if_neg h2]
      show SysState.mk ((hnew :: st.openSessions).erase hnew) = st
      rw [List.erase_cons_head]

/-- Witness for C10 on the capsule-creation-failure path: the native open
succeeded and allocated session 7, the capsule failed, and the state is
back to empty. -/
theorem C10_open_atomic_on_failure_witness :
    (py_slp_open ⟨[]⟩ 0 7 false).1 = ⟨[]⟩ :=
  C10_open_atomic_on_failure ⟨[]⟩ 0 7 false .allocFailed rfl
